import Mathlib

/-!
Verification of the asynchronous job/queue subsystem of the
Document-proc-convert repository (src/src/routes/jobs.js, src/src/app.js,
src/src/middleware/fileUpload.js, src/src/routes/convert.js,
src/src/routes/ocr.js, src/src/middleware/errorHandler.js).

The route handlers are embedded as pure functions over an explicit queue
state.  Parts of the queue behaviour live inside the external `bull`
library (retry/backoff execution, `claimNext`) and are not present under
src/; those definitions are modelled from the specification and marked
`Modelled from the spec:` in their doc comments.
-/

namespace DocProc

/-- Job states as reported by `job.getState()` and used by the route
handlers in src/src/routes/jobs.js (`waiting`, `active`, `completed`,
`failed`, `delayed`). -/
inductive JobState
  | waiting
  | active
  | completed
  | failed
  | delayed
  deriving DecidableEq, Repr

/-- Render a job state the way the route handlers interpolate it into
messages (for example "Job is in completed state"). -/
def JobState.name : JobState → String
  | .waiting => "waiting"
  | .active => "active"
  | .completed => "completed"
  | .failed => "failed"
  | .delayed => "delayed"

/-- The fields of a bull job record that the route handlers in
src/src/routes/jobs.js read: `job.id`, `job.timestamp`, `job.processedOn`,
`job.finishedOn`, the state from `job.getState()`, `job.progress()`,
`job.returnvalue`, `job.failedReason`, `job.attemptsMade`, and the
`job.data` fields (`type`, `file.originalname`). -/
structure Job where
  id : String
  timestamp : Nat
  processedOn : Option Nat
  finishedOn : Option Nat
  state : JobState
  progress : Nat
  returnvalue : String
  failedReason : String
  attemptsMade : Nat
  dataType : String
  dataFilename : String
  deriving DecidableEq, Repr

/-- The queue store contents visible to `jobQueue.getJob`: the list of job
records currently held by the queue. -/
abbrev Store := List Job

/-- Embedding of `jobQueue.getJob(jobId)`: look the job up by id. -/
def getJob (store : Store) (jobId : String) : Option Job :=
  List.find? (fun j => j.id == jobId) store

/-- Embedding of `job.remove()` as observed on the store: the record with
the given id is deleted. -/
def removeJob (store : Store) (jobId : String) : Store :=
  List.filter (fun j => ¬ j.id == jobId) (store : List Job)

/-- The body of a successful response of `GET /:jobId/status`
(src/src/routes/jobs.js lines 68-84).  `result` is set by the
`state === 'completed'` branch, `errorField` (the JSON field named
`error`, holding `job.failedReason`) and `attemptsMade` by the
`state === 'failed'` branch. -/
structure StatusBody where
  jobId : String
  state : JobState
  progress : Nat
  createdAt : Nat
  processedAt : Option Nat
  finishedAt : Option Nat
  result : Option String
  errorField : Option String
  attemptsMade : Option Nat
  deriving DecidableEq, Repr

/-- Outcome of `GET /:jobId/status`: the 503 guard when `jobQueue` is
null, `JobNotFoundError` (mapped to 404 by errorHandler.js), or the 200
JSON body. -/
inductive StatusResult
  | serviceUnavailable (error message : String)
  | jobNotFound (message : String)
  | ok (body : StatusBody)
  deriving DecidableEq, Repr

/-- HTTP status code of a status-route outcome: 503 from the guard, 404
from the `JobNotFoundError` branch of errorHandler.js, 200 otherwise. -/
def StatusResult.httpStatus : StatusResult → Nat
  | .serviceUnavailable _ _ => 503
  | .jobNotFound _ => 404
  | .ok _ => 200

/-- Embedding of the `GET /:jobId/status` handler
(src/src/routes/jobs.js lines 49-88).  `queue = none` models the
`!jobQueue` case (no Redis configured). -/
def getStatus (queue : Option Store) (jobId : String) : StatusResult :=
  match queue with
  | none =>
      .serviceUnavailable "Job queue not available"
        "Async processing requires Redis connection"
  | some store =>
      match getJob store jobId with
      | none => .jobNotFound ("Job " ++ jobId ++ " not found")
      | some job =>
          .ok
            { jobId := job.id
              state := job.state
              progress := job.progress
              createdAt := job.timestamp
              processedAt := job.processedOn
              finishedAt := job.finishedOn
              result := if job.state = .completed then some job.returnvalue else none
              errorField := if job.state = .failed then some job.failedReason else none
              attemptsMade := if job.state = .failed then some job.attemptsMade else none }

/-- Sample job used by concrete witnesses below. -/
def sampleWaitingJob : Job :=
  { id := "1", timestamp := 1000, processedOn := none, finishedOn := none
    state := .waiting, progress := 0, returnvalue := "", failedReason := ""
    attemptsMade := 0, dataType := "excel-to-csv", dataFilename := "a.xlsx" }

/-- Sample completed job used by concrete witnesses below. -/
def sampleCompletedJob : Job :=
  { id := "2", timestamp := 2000, processedOn := some 2500, finishedOn := some 3000
    state := .completed, progress := 100, returnvalue := "out.pdf", failedReason := ""
    attemptsMade := 1, dataType := "office-to-pdf", dataFilename := "b.docx" }

/-- Sample failed job used by concrete witnesses below. -/
def sampleFailedJob : Job :=
  { id := "3", timestamp := 3000, processedOn := some 3500, finishedOn := some 4000
    state := .failed, progress := 50, returnvalue := "", failedReason := "boom"
    attemptsMade := 3, dataType := "office-to-pdf", dataFilename := "c.docx" }

/-- Sample store holding one waiting, one completed and one failed job. -/
def sampleStore : Store := [sampleWaitingJob, sampleCompletedJob, sampleFailedJob]

/-- C6: the status query fails with NotFound (HTTP 404) when no job with
that id exists; when the job exists it returns the job's state, progress
and createdAt/processedAt/finishedAt timestamps, with the result field set
exactly when the state is completed and the failure-reason field set
exactly when the state is failed. -/
theorem status_query_fields (store : Store) (jobId : String) :
    (getJob store jobId = none →
      getStatus (some store) jobId = .jobNotFound ("Job " ++ jobId ++ " not found") ∧
      (getStatus (some store) jobId).httpStatus = 404) ∧
    (∀ job : Job, getJob store jobId = some job →
      getStatus (some store) jobId =
        .ok
          { jobId := job.id
            state := job.state
            progress := job.progress
            createdAt := job.timestamp
            processedAt := job.processedOn
            finishedAt := job.finishedOn
            result := if job.state = .completed then some job.returnvalue else none
            errorField := if job.state = .failed then some job.failedReason else none
            attemptsMade := if job.state = .failed then some job.attemptsMade else none } ∧
      ((if job.state = .completed then some job.returnvalue else none).isSome ↔
        job.state = .completed) ∧
      ((if job.state = .failed then some job.failedReason else none).isSome ↔
        job.state = .failed)) := by
  constructor
  · intro h
    simp [getStatus, h, StatusResult.httpStatus]
  · intro job h
    refine ⟨by simp [getStatus, h], ?_, ?_⟩
    · by_cases hc : job.state = .completed <;> simp [hc]
    · by_cases hf : job.state = .failed <;> simp [hf]

/-- Concrete instantiation of `status_query_fields`: in `sampleStore`,
job "9" is absent and job "2" is completed. -/
theorem status_query_fields_witness :
    getStatus (some sampleStore) "9" = .jobNotFound "Job 9 not found" ∧
    getStatus (some sampleStore) "2" =
      .ok
        { jobId := "2", state := .completed, progress := 100, createdAt := 2000
          processedAt := some 2500, finishedAt := some 3000
          result := some "out.pdf", errorField := none, attemptsMade := none } := by
  have h1 := (status_query_fields sampleStore "9").1 (by decide)
  have h2 := (status_query_fields sampleStore "2").2 sampleCompletedJob (by decide)
  refine ⟨h1.1, ?_⟩
  have := h2.1
  simpa [sampleCompletedJob] using this

/-- Outcome of `DELETE /:jobId` (cancel, src/src/routes/jobs.js lines
132-167): the 503 guard, `JobNotFoundError` (404), the 400 rejection for
jobs already `completed`/`failed`, or the success body. -/
inductive CancelResult
  | serviceUnavailable (error message : String)
  | jobNotFound (message : String)
  | invalidState (error message : String)
  | ok (message jobId : String)
  deriving DecidableEq, Repr

/-- HTTP status code of a cancel-route outcome (the 404 comes from the
`JobNotFoundError` branch of errorHandler.js). -/
def CancelResult.httpStatus : CancelResult → Nat
  | .serviceUnavailable _ _ => 503
  | .jobNotFound _ => 404
  | .invalidState _ _ => 400
  | .ok _ _ => 200

/-- Embedding of the `DELETE /:jobId` handler (src/src/routes/jobs.js
lines 132-167).  Returns the response together with the queue contents
after the call (`job.remove()` deletes the record). -/
def cancelJob (queue : Option Store) (jobId : String) :
    CancelResult × Option Store :=
  match queue with
  | none =>
      (.serviceUnavailable "Job queue not available"
        "Async processing requires Redis connection", none)
  | some store =>
      match getJob store jobId with
      | none => (.jobNotFound ("Job " ++ jobId ++ " not found"), some store)
      | some job =>
          if job.state = .completed ∨ job.state = .failed then
            (.invalidState "Cannot cancel job" ("Job already " ++ job.state.name),
              some store)
          else
            (.ok ("Job " ++ jobId ++ " cancelled") jobId,
              some (removeJob store jobId))

/-- After removing every record with the given id, `getJob` no longer
finds it. -/
theorem getJob_removeJob (store : Store) (jobId : String) :
    getJob (removeJob store jobId) jobId = none := by
  apply List.find?_eq_none.mpr
  intro j hj
  have := (List.mem_filter.mp hj).2
  simpa using this

/-- C2: cancelling a job already in a terminal state (completed or
failed) is rejected with InvalidState (HTTP 400) and the store is left
unchanged; cancelling a waiting job removes the record, and a subsequent
status query for that id fails with NotFound (HTTP 404). -/
theorem cancel_terminal_rejected_waiting_removed (store : Store)
    (jobId : String) (job : Job) (hget : getJob store jobId = some job) :
    (job.state = .completed ∨ job.state = .failed →
      cancelJob (some store) jobId =
        (.invalidState "Cannot cancel job" ("Job already " ++ job.state.name),
          some store) ∧
      (cancelJob (some store) jobId).1.httpStatus = 400) ∧
    (job.state = .waiting →
      cancelJob (some store) jobId =
        (.ok ("Job " ++ jobId ++ " cancelled") jobId,
          some (removeJob store jobId)) ∧
      getJob (removeJob store jobId) jobId = none ∧
      getStatus (some (removeJob store jobId)) jobId =
        .jobNotFound ("Job " ++ jobId ++ " not found") ∧
      (getStatus (some (removeJob store jobId)) jobId).httpStatus = 404) := by
  constructor
  · intro hterm
    constructor
    · simp [cancelJob, hget, hterm]
    · simp [cancelJob, hget, hterm, CancelResult.httpStatus]
  · intro hw
    have hnt : ¬ (job.state = .completed ∨ job.state = .failed) := by
      rw [hw]; rintro (h | h) <;> exact JobState.noConfusion h
    refine ⟨by simp [cancelJob, hget, hnt], getJob_removeJob store jobId, ?_, ?_⟩
    · simp [getStatus, getJob_removeJob store jobId]
    · simp [getStatus, getJob_removeJob store jobId, StatusResult.httpStatus]

/-- Concrete instantiation of `cancel_terminal_rejected_waiting_removed`:
in `sampleStore`, cancelling completed job "2" is rejected with 400 and
cancelling waiting job "1" removes it, after which status is 404. -/
theorem cancel_terminal_rejected_waiting_removed_witness :
    cancelJob (some sampleStore) "2" =
      (.invalidState "Cannot cancel job" "Job already completed", some sampleStore) ∧
    cancelJob (some sampleStore) "1" =
      (.ok "Job 1 cancelled" "1", some (removeJob sampleStore "1")) ∧
    getStatus (some (removeJob sampleStore "1")) "1" = .jobNotFound "Job 1 not found" := by
  have h2 := (cancel_terminal_rejected_waiting_removed sampleStore "2"
    sampleCompletedJob (by decide)).1 (Or.inl (by decide))
  have h1 := (cancel_terminal_rejected_waiting_removed sampleStore "1"
    sampleWaitingJob (by decide)).2 (by decide)
  exact ⟨by simpa [sampleCompletedJob, JobState.name] using h2.1, h1.1, h1.2.2.1⟩

/-- Outcome of `GET /:jobId/download` (src/src/routes/jobs.js lines
91-129): the 503 guard, `JobNotFoundError` (404), the 400 "Job not ready"
rejection when the state is not completed, or the result payload. -/
inductive DownloadResult
  | serviceUnavailable (error message : String)
  | jobNotFound (message : String)
  | notReady (error message jobId : String)
  | ok (jobId message result : String)
  deriving DecidableEq, Repr

/-- HTTP status code of a download-route outcome. -/
def DownloadResult.httpStatus : DownloadResult → Nat
  | .serviceUnavailable _ _ => 503
  | .jobNotFound _ => 404
  | .notReady _ _ _ => 400
  | .ok _ _ _ => 200

/-- Embedding of the `GET /:jobId/download` handler
(src/src/routes/jobs.js lines 91-129): the result (`job.returnvalue`) is
returned only in the `state === 'completed'` case. -/
def downloadJob (queue : Option Store) (jobId : String) : DownloadResult :=
  match queue with
  | none =>
      .serviceUnavailable "Job queue not available"
        "Async processing requires Redis connection"
  | some store =>
      match getJob store jobId with
      | none => .jobNotFound ("Job " ++ jobId ++ " not found")
      | some job =>
          if job.state = .completed then
            .ok jobId "File download endpoint - to be implemented" job.returnvalue
          else
            .notReady "Job not ready" ("Job is in " ++ job.state.name ++ " state") jobId

/-- C3: download returns the job's result only when the job is completed;
for a known job in any other state it fails with InvalidState (HTTP 400),
and for an unknown id it fails with NotFound (HTTP 404). -/
theorem download_requires_completed (store : Store) (jobId : String) :
    (getJob store jobId = none →
      downloadJob (some store) jobId = .jobNotFound ("Job " ++ jobId ++ " not found") ∧
      (downloadJob (some store) jobId).httpStatus = 404) ∧
    (∀ job : Job, getJob store jobId = some job →
      (job.state = .completed →
        downloadJob (some store) jobId =
          .ok jobId "File download endpoint - to be implemented" job.returnvalue ∧
        (downloadJob (some store) jobId).httpStatus = 200) ∧
      (job.state ≠ .completed →
        downloadJob (some store) jobId =
          .notReady "Job not ready" ("Job is in " ++ job.state.name ++ " state") jobId ∧
        (downloadJob (some store) jobId).httpStatus = 400)) := by
  constructor
  · intro h
    simp [downloadJob, h, DownloadResult.httpStatus]
  · intro job h
    constructor
    · intro hc
      simp [downloadJob, h, hc, DownloadResult.httpStatus]
    · intro hc
      simp [downloadJob, h, hc, DownloadResult.httpStatus]

/-- Concrete instantiation of `download_requires_completed`: in
`sampleStore`, job "2" (completed) downloads its result, job "1"
(waiting) is rejected with 400, and job "9" is 404. -/
theorem download_requires_completed_witness :
    downloadJob (some sampleStore) "2" =
      .ok "2" "File download endpoint - to be implemented" "out.pdf" ∧
    downloadJob (some sampleStore) "1" =
      .notReady "Job not ready" "Job is in waiting state" "1" ∧
    downloadJob (some sampleStore) "9" = .jobNotFound "Job 9 not found" := by
  have h2 := ((download_requires_completed sampleStore "2").2 sampleCompletedJob
    (by decide)).1 (by decide)
  have h1 := ((download_requires_completed sampleStore "1").2 sampleWaitingJob
    (by decide)).2 (by decide)
  have h9 := (download_requires_completed sampleStore "9").1 (by decide)
  exact ⟨by simpa [sampleCompletedJob] using h2.1,
    by simpa [sampleWaitingJob, JobState.name] using h1.1, h9.1⟩

/-- A JavaScript value reaching the list handler's pagination arithmetic:
Express delivers query parameters as strings, while the destructuring
defaults (`limit = 20, offset = 0`) are numbers. -/
inductive JSVal
  | num (n : Int)
  | str (s : String)
  deriving DecidableEq, Repr

/-- JavaScript string conversion of such a value (used by `+` when either
operand is a string). -/
def JSVal.jsString : JSVal → String
  | .num n => toString n
  | .str s => s

/-- Value of a non-negative decimal digit string. -/
def digitsToNat (cs : List Char) : Nat :=
  cs.foldl (fun acc c => acc * 10 + (c.toNat - 48)) 0

/-- JavaScript numeric coercion of such a value.  The handler only ever
coerces non-negative decimal digit strings (query parameters), for which
`Number(s)` is the denoted integer; other strings are outside the
modelled inputs. -/
def jsToNumber : JSVal → Int
  | .num n => n
  | .str s => digitsToNat s.data

/-- JavaScript `+`: numeric addition when both operands are numbers,
string concatenation as soon as one operand is a string. -/
def jsAdd (a b : JSVal) : JSVal :=
  match a, b with
  | .num x, .num y => .num (x + y)
  | _, _ => .str (a.jsString ++ b.jsString)

/-- JavaScript `-`: always numeric, coercing both operands. -/
def jsSub (a b : JSVal) : JSVal :=
  .num (jsToNumber a - jsToNumber b)

/-- JavaScript `parseInt` as applied to the handler's `limit`/`offset`
values (numbers or decimal digit strings). -/
def jsParseInt (v : JSVal) : Int :=
  jsToNumber v

/-- Per-state view of the queue used by `jobQueue.getJobs([state], start,
end)`.  Modelled from the spec: the library returns each state's jobs
ordered oldest-first by `createdAt`; the index window itself
(`offset` … `offset + limit - 1`, inclusive) is taken from the source. -/
def ByState := JobState → List Job

/-- Inclusive index window `[start, stop]` of a list, as the store range
query applies it (empty when the window is empty or out of range). -/
def sliceInclusive (l : List Job) (start stop : Int) : List Job :=
  (l.drop start.toNat).take (stop + 1 - start).toNat

/-- One entry of the list response (src/src/routes/jobs.js lines
192-204): id, state, progress, createdAt and the `data` projection. -/
structure ListItem where
  jobId : String
  state : JobState
  progress : Nat
  createdAt : Nat
  dataType : String
  dataFilename : String
  deriving DecidableEq, Repr

/-- Body of a successful `GET /` response: the collected jobs, `total`
(set to `jobs.length` by the source), and the parsed limit/offset. -/
structure ListResponse where
  jobs : List ListItem
  total : Nat
  limit : Int
  offset : Int
  deriving DecidableEq, Repr

/-- Outcome of `GET /` (src/src/routes/jobs.js lines 170-215). -/
inductive ListResult
  | serviceUnavailable (error message : String)
  | ok (body : ListResponse)
  deriving DecidableEq, Repr

/-- HTTP status code of a list-route outcome. -/
def ListResult.httpStatus : ListResult → Nat
  | .serviceUnavailable _ _ => 503
  | .ok _ => 200

/-- Number of jobs carried by a list-route outcome. -/
def ListResult.count : ListResult → Nat
  | .serviceUnavailable _ _ => 0
  | .ok body => body.jobs.length

/-- Projection of a job record to its list entry. -/
def toListItem (j : Job) : ListItem :=
  { jobId := j.id, state := j.state, progress := j.progress
    createdAt := j.timestamp, dataType := j.dataType
    dataFilename := j.dataFilename }

/-- The five states enumerated by the `state === 'all'` branch of the
list handler, in source order. -/
def allStates : List JobState :=
  [.waiting, .active, .completed, .failed, .delayed]

/-- Embedding of the `GET /` handler (src/src/routes/jobs.js lines
170-215).  The window end is the JavaScript expression
`offset + limit - 1`, which concatenates rather than adds when the query
parameters arrive as strings. -/
def listJobsRoute (queue : Option ByState) (stateParam : String)
    (offset limit : JSVal) : ListResult :=
  match queue with
  | none =>
      .serviceUnavailable "Job queue not available"
        "Async processing requires Redis connection"
  | some byState =>
      let stop := jsToNumber (jsSub (jsAdd offset limit) (.num 1))
      let start := jsToNumber offset
      let jobs :=
        if stateParam = "all" then
          (allStates.map (fun s => sliceInclusive (byState s) start stop)).flatten
        else
          match allStates.find? (fun s => s.name == stateParam) with
          | some s => sliceInclusive (byState s) start stop
          | none => []
      .ok
        { jobs := jobs.map toListItem
          total := (jobs.map toListItem).length
          limit := jsParseInt limit
          offset := jsParseInt offset }

/-- Demonstration store for the list route: 110 jobs in each state,
oldest first. -/
def demoByState : ByState := fun s =>
  (List.range 110).map (fun k =>
    { id := s.name ++ "-" ++ toString k, timestamp := k
      processedOn := none, finishedOn := none, state := s, progress := 0
      returnvalue := "", failedReason := "", attemptsMade := 0
      dataType := "office-to-pdf", dataFilename := "f.docx" })

/-- C4 (code evaluated at the failing input): with query strings
`offset="10"`, `limit="20"`, JavaScript evaluates `offset + limit - 1` by
string concatenation to 1019, so each state is fetched with the window
[10, 1019] instead of [10, 29]; against a store with 110 jobs per state
the route returns 500 jobs, exceeding the claimed bound of 5 * limit =
100.  (With the numeric defaults the window is [0, 19] as claimed.) -/
theorem list_all_string_params_overflow_window :
    jsToNumber (jsSub (jsAdd (JSVal.str "10") (JSVal.str "20")) (JSVal.num 1)) = 1019 ∧
    (listJobsRoute (some demoByState) "all" (JSVal.str "10") (JSVal.str "20")).count = 500 ∧
    5 * 20 < 500 ∧
    (listJobsRoute (some demoByState) "all" (JSVal.num 0) (JSVal.num 20)).count = 100 := by
  have hlen : ∀ s : JobState, (demoByState s).length = 110 := by
    intro s; simp [demoByState]
  have hslice : ∀ (s : JobState) (a b : Int), 0 ≤ a →
      (sliceInclusive (demoByState s) a b).length =
        min (b + 1 - a).toNat (110 - a.toNat) := by
    intro s a b _
    simp [sliceInclusive, hlen s]
  have h1 : (listJobsRoute (some demoByState) "all"
      (JSVal.str "10") (JSVal.str "20")).count =
      ((allStates.map (fun s =>
        sliceInclusive (demoByState s) 10 1019)).flatten.map toListItem).length := rfl
  have h2 : (listJobsRoute (some demoByState) "all"
      (JSVal.num 0) (JSVal.num 20)).count =
      ((allStates.map (fun s =>
        sliceInclusive (demoByState s) 0 19)).flatten.map toListItem).length := rfl
  refine ⟨rfl, ?_, by norm_num, ?_⟩
  · rw [h1, List.length_map]
    simp [allStates, hslice]
  · rw [h2, List.length_map]
    simp [allStates, hslice]

/-- C5: with the Queue Store unavailable (`jobQueue` null, modelled as
`none`), every Job Service operation — status, download, cancel, list —
fails fast with HTTP 503 and the message "Async processing requires Redis
connection" distinguishing the infrastructure failure; no result is
produced and no store is mutated (cancel returns the absent store
unchanged), so nothing degrades to synchronous execution. -/
theorem store_unavailable_returns_503 (jobId stateParam : String)
    (offset limit : JSVal) :
    getStatus none jobId =
      .serviceUnavailable "Job queue not available"
        "Async processing requires Redis connection" ∧
    (getStatus none jobId).httpStatus = 503 ∧
    downloadJob none jobId =
      .serviceUnavailable "Job queue not available"
        "Async processing requires Redis connection" ∧
    (downloadJob none jobId).httpStatus = 503 ∧
    cancelJob none jobId =
      (.serviceUnavailable "Job queue not available"
        "Async processing requires Redis connection", none) ∧
    ((cancelJob none jobId).1).httpStatus = 503 ∧
    listJobsRoute none stateParam offset limit =
      .serviceUnavailable "Job queue not available"
        "Async processing requires Redis connection" ∧
    (listJobsRoute none stateParam offset limit).httpStatus = 503 := by
  refine ⟨rfl, rfl, rfl, rfl, rfl, rfl, rfl, rfl⟩

/-- Retry configuration taken from `defaultJobOptions` in
src/src/routes/jobs.js: `attempts` (the maximum number of attempts) and
the exponential backoff base delay in milliseconds. -/
structure RetryConfig where
  maxAttempts : Nat
  backoffBase : Nat
  deriving DecidableEq, Repr

/-- Embedding of the `defaultJobOptions` passed to the queue constructor
(src/src/routes/jobs.js lines 10-18): `attempts: 3` (the
`JOB_ATTEMPTS` default), `backoff: { type: 'exponential', delay: 2000 }`. -/
def defaultJobOptions : RetryConfig :=
  { maxAttempts := 3, backoffBase := 2000 }

/-- Job state tracked by the retry state machine: attempts made so far,
failure reason and terminal timestamp (set only on the terminal failure),
and the backoff delay of the current `delayed` period. -/
structure RJob where
  state : JobState
  attemptsMade : Nat
  failureReason : Option String
  finishedAt : Option Nat
  delayMs : Option Nat
  deriving DecidableEq, Repr

/-- Modelled from the spec: the exponential backoff delay computed by the
external queue library for a retry after the n-th failed attempt,
`delay = base * 2^(n-1)` (spec §4.2); the implementation lives in the
`bull` dependency, not under src/. -/
def backoffDelay (base n : Nat) : Nat :=
  base * 2 ^ (n - 1)

/-- Modelled from the spec: the transition applied by the external queue
library when an execution attempt of an active job fails (spec §4.2):
`attemptsMade += 1`; if still below `maxAttempts` the job becomes
`delayed` with the exponential backoff delay, otherwise it becomes
terminally `failed` with `failureReason` set and `finishedAt` stamped.
The configuration comes from `defaultJobOptions` in src. -/
def onFailure (cfg : RetryConfig) (reason : String) (now : Nat) (j : RJob) : RJob :=
  let attempts := j.attemptsMade + 1
  if attempts < cfg.maxAttempts then
    { j with state := .delayed, attemptsMade := attempts
             delayMs := some (backoffDelay cfg.backoffBase attempts) }
  else
    { j with state := .failed, attemptsMade := attempts
             failureReason := some reason, finishedAt := some now
             delayMs := none }

/-- C1: a failed attempt retries with exponential backoff
`base * 2^(attemptsMade-1)` (default base 2000ms, default maxAttempts 3);
delays strictly increase across retries; and when the failing attempt is
number `maxAttempts`, the job transitions to the terminal failed state
with `failureReason` set. -/
theorem retry_backoff_policy (cfg : RetryConfig) (reason : String)
    (now : Nat) (j : RJob) :
    defaultJobOptions.maxAttempts = 3 ∧
    defaultJobOptions.backoffBase = 2000 ∧
    (j.attemptsMade + 1 < cfg.maxAttempts →
      (onFailure cfg reason now j).state = .delayed ∧
      (onFailure cfg reason now j).attemptsMade = j.attemptsMade + 1 ∧
      (onFailure cfg reason now j).delayMs =
        some (cfg.backoffBase * 2 ^ (j.attemptsMade + 1 - 1))) ∧
    (j.attemptsMade + 1 = cfg.maxAttempts →
      (onFailure cfg reason now j).state = .failed ∧
      (onFailure cfg reason now j).attemptsMade = cfg.maxAttempts ∧
      (onFailure cfg reason now j).failureReason = some reason ∧
      (onFailure cfg reason now j).finishedAt = some now) ∧
    (∀ base n : Nat, 0 < base → 1 ≤ n →
      backoffDelay base n < backoffDelay base (n + 1)) ∧
    backoffDelay 2000 1 = 2000 ∧ backoffDelay 2000 2 = 4000 := by
  refine ⟨rfl, rfl, ?_, ?_, ?_, by norm_num [backoffDelay], by norm_num [backoffDelay]⟩
  · intro h
    refine ⟨?_, ?_, ?_⟩ <;> simp [onFailure, h, backoffDelay]
  · intro h
    have hn : ¬ j.attemptsMade + 1 < cfg.maxAttempts := by omega
    refine ⟨?_, ?_, ?_, ?_⟩ <;> simp [onFailure, hn, h]
  · intro base n hb hn
    have h1 : n - 1 < n := by omega
    have h2 : n + 1 - 1 = n := by omega
    unfold backoffDelay
    rw [h2]
    have hp : 2 ^ (n - 1) < 2 ^ n := Nat.pow_lt_pow_right (by norm_num) h1
    exact mul_lt_mul_of_pos_left hp hb

/-- Concrete instantiation of `retry_backoff_policy` at the default
configuration: the first failure of a fresh job delays it by 2000ms, and
the failure of attempt 3 (the default maximum) makes it failed. -/
theorem retry_backoff_policy_witness :
    (onFailure defaultJobOptions "err" 7 ⟨.active, 0, none, none, none⟩).state = .delayed ∧
    (onFailure defaultJobOptions "err" 7 ⟨.active, 0, none, none, none⟩).delayMs = some 2000 ∧
    (onFailure defaultJobOptions "err" 7 ⟨.active, 2, none, none, none⟩).state = .failed ∧
    (onFailure defaultJobOptions "err" 7 ⟨.active, 2, none, none, none⟩).failureReason =
      some "err" := by
  have h1 := (retry_backoff_policy defaultJobOptions "err" 7
    ⟨.active, 0, none, none, none⟩).2.2.1 (by decide)
  have h2 := (retry_backoff_policy defaultJobOptions "err" 7
    ⟨.active, 2, none, none, none⟩).2.2.2.1 (by decide)
  exact ⟨h1.1, by simpa using h1.2.2, h2.1, h2.2.2.1⟩

/-- Typed enqueue failure (spec §7): an unregistered type is an
`UnsupportedType` routing failure. -/
inductive EnqueueError
  | unsupportedType (t : String)
  deriving DecidableEq, Repr

/-- Modelled from the spec: the Job Service `enqueue` operation (spec
§4.4/§4.5).  No enqueue endpoint exists under src/ (the jobs endpoint
listing in src/src/app.js lines 81-84 has only status and download), so
this follows the spec's words: the declared type is validated against the
registered Converters; an unknown type fails fast with `UnsupportedType`
and no job record is created, otherwise a fresh waiting job is appended
to the store. -/
def enqueue (registry : List String) (t payload : String) (freshId : String)
    (now : Nat) (store : Store) : Except EnqueueError (Store × String) :=
  if t ∈ registry then
    .ok (store ++
      [{ id := freshId, timestamp := now, processedOn := none, finishedOn := none
         state := .waiting, progress := 0, returnvalue := "", failedReason := ""
         attemptsMade := 0, dataType := t, dataFilename := payload }], freshId)
  else
    .error (.unsupportedType t)

/-- The conversion types for which a Converter is registered, per the
route listing in src/src/app.js lines 70-76. -/
def registeredTypes : List String :=
  ["office-to-pdf", "excel-to-csv", "csv-to-excel", "excel-to-json",
   "json-to-excel", "html-to-markdown", "markdown-to-html"]

/-- C7: an enqueue request whose declared type matches no registered
Converter is rejected with `UnsupportedType` and the store is never
extended; conversely a job record only ever comes into existence for a
registered type. -/
theorem enqueue_unknown_type_rejected (registry : List String)
    (t payload freshId : String) (now : Nat) (store : Store)
    (h : t ∉ registry) :
    enqueue registry t payload freshId now store =
      .error (.unsupportedType t) ∧
    ∀ store' id', enqueue registry t payload freshId now store ≠ .ok (store', id') := by
  constructor
  · simp [enqueue, h]
  · intro store' id'
    simp [enqueue, h]

/-- Concrete instantiation of `enqueue_unknown_type_rejected`: the type
"pdf-to-office" is not registered, so enqueueing it into the empty store
is rejected. -/
theorem enqueue_unknown_type_rejected_witness :
    enqueue registeredTypes "pdf-to-office" "f.pdf" "j1" 5 [] =
      .error (.unsupportedType "pdf-to-office") :=
  (enqueue_unknown_type_rejected registeredTypes "pdf-to-office" "f.pdf" "j1" 5 []
    (by decide)).1

/-- The `job.data` fields read by the `jobQueue.process('convert', ...)`
handler in src/src/routes/jobs.js lines 22-36. -/
structure ConvertJobData where
  dataType : String
  fileOriginalname : String
  deriving DecidableEq, Repr

/-- Outcome of one processor invocation. -/
structure ProcessOutcome where
  success : Bool
  result : String
  deriving DecidableEq, Repr

/-- Embedding of the `jobQueue.process('convert', ...)` handler
(src/src/routes/jobs.js lines 22-36): the body is a stub ("TODO:
Implement actual conversion processing") that simulates a fixed 2000ms
delay and resolves successfully; it invokes no Converter, reads no
`JOB_TIMEOUT`, and cannot fail or time out. -/
def processConvert (d : ConvertJobData) : ProcessOutcome :=
  { success := true
    result := "Processed " ++ d.dataType ++ " conversion for " ++ d.fileOriginalname }

/-- C8 (code evaluated against the claim): the processor succeeds
unconditionally — for every job it returns `success := true` — so no
Converter invocation is bounded by `JOB_TIMEOUT` and no timeout is ever
converted into a retryable failure; `JOB_TIMEOUT` is declared in
.env.example but read nowhere in the source. -/
theorem process_convert_always_succeeds (d : ConvertJobData) :
    processConvert d =
      { success := true
        result := "Processed " ++ d.dataType ++ " conversion for " ++ d.fileOriginalname } ∧
    (processConvert d).success = true := by
  exact ⟨rfl, rfl⟩

/-- Job view used by the claim model: id, creation time and state. -/
structure QJob where
  id : Nat
  createdAt : Nat
  state : JobState
  deriving DecidableEq, Repr

/-- Eligibility predicate of the claim model. -/
def isWaiting (j : QJob) : Bool :=
  j.state == .waiting

/-- Transition a job (identified by id) to `active`, leaving every other
record untouched. -/
def setActive (store : List QJob) (i : Nat) : List QJob :=
  store.map (fun j => if j.id = i then { j with state := JobState.active } else j)

/-- Modelled from the spec: `claimNext` (spec §4.1/§5) atomically selects
one waiting job — the first eligible record of the store, which is the
oldest when the store is kept in creation order — transitions it
`waiting → active` and returns its id.  The implementation lives inside
the external queue library (`bull`), not under src/; concurrent callers
are modelled as interleavings of these atomic steps. -/
def claimNext (store : List QJob) : Option Nat × List QJob :=
  match store.find? isWaiting with
  | none => (none, store)
  | some j => (some j.id, setActive store j.id)

/-- N successive atomic `claimNext` steps, collecting the claimed ids
(an arbitrary interleaving of N concurrent callers is some sequence of
these atomic steps). -/
def claimMany : Nat → List QJob → List Nat × List QJob
  | 0, store => ([], store)
  | n + 1, store =>
      match claimNext store with
      | (none, store') => ([], store')
      | (some i, store') => (i :: (claimMany n store').1, (claimMany n store').2)

/-- Ids of the currently waiting jobs. -/
def waitingIds (store : List QJob) : List Nat :=
  (store.filter isWaiting).map QJob.id

/-- Number of currently waiting jobs. -/
def countWaiting (store : List QJob) : Nat :=
  (store.filter isWaiting).length

/-- Setting a job active does not change the multiset of ids. -/
theorem setActive_map_id (store : List QJob) (i : Nat) :
    (setActive store i).map QJob.id = store.map QJob.id := by
  unfold setActive
  rw [List.map_map]
  apply List.map_congr_left
  intro j _
  by_cases h : j.id = i <;> simp [h]

/-- A claimed id is no longer waiting afterwards. -/
theorem not_mem_waitingIds_setActive (store : List QJob) (i : Nat) :
    i ∉ waitingIds (setActive store i) := by
  unfold waitingIds setActive
  intro hmem
  obtain ⟨x, hx, hxid⟩ := List.mem_map.mp hmem
  obtain ⟨hxmem, hxw⟩ := List.mem_filter.mp hx
  obtain ⟨j, _, hj⟩ := List.mem_map.mp hxmem
  by_cases h : j.id = i
  · rw [if_pos h] at hj
    rw [← hj] at hxw
    simp [isWaiting] at hxw
  · rw [if_neg h] at hj
    rw [← hj] at hxid
    exact h hxid

/-- Setting a job active only shrinks the set of waiting ids. -/
theorem waitingIds_setActive_subset (store : List QJob) (i : Nat) :
    ∀ x, x ∈ waitingIds (setActive store i) → x ∈ waitingIds store := by
  intro x hmem
  unfold waitingIds at hmem ⊢
  unfold setActive at hmem
  obtain ⟨y, hy, hyid⟩ := List.mem_map.mp hmem
  obtain ⟨hymem, hyw⟩ := List.mem_filter.mp hy
  obtain ⟨j, hjmem, hj⟩ := List.mem_map.mp hymem
  by_cases h : j.id = i
  · rw [if_pos h] at hj
    rw [← hj] at hyw
    simp [isWaiting] at hyw
  · rw [if_neg h] at hj
    subst hj
    exact List.mem_map.mpr ⟨j, List.mem_filter.mpr ⟨hjmem, hyw⟩, hyid⟩

/-- If no record carries the id, `setActive` is the identity. -/
theorem setActive_of_not_mem (store : List QJob) (i : Nat) :
    (∀ j ∈ store, j.id ≠ i) → setActive store i = store := by
  induction store with
  | nil => intro _; rfl
  | cons a rest ih =>
      intro h
      have hcons : setActive (a :: rest) i =
          (if a.id = i then { a with state := JobState.active } else a) ::
            setActive rest i := rfl
      rw [hcons, if_neg (h a (List.mem_cons_self a rest)),
        ih (fun j hj => h j (List.mem_cons_of_mem a hj))]

/-- Claiming a waiting job with a unique id removes exactly one job from
the waiting count. -/
theorem countWaiting_setActive (store : List QJob) (i : Nat)
    (hnd : (store.map QJob.id).Nodup) (j : QJob) (hj : j ∈ store)
    (hid : j.id = i) (hw : isWaiting j = true) :
    countWaiting (setActive store i) = countWaiting store - 1 := by
  induction store with
  | nil => exact absurd hj (List.not_mem_nil j)
  | cons a rest ih =>
      rw [List.map_cons, List.nodup_cons] at hnd
      obtain ⟨hna, hndr⟩ := hnd
      have hsa : setActive (a :: rest) i =
          (if a.id = i then { a with state := JobState.active } else a) ::
            setActive rest i := rfl
      rcases List.mem_cons.mp hj with hja | hjr
      · subst hja
        rw [hsa, if_pos hid]
        have hrest : setActive rest i = rest := by
          apply setActive_of_not_mem
          intro k hk hki
          apply hna
          have hkj : k.id = j.id := by rw [hki, hid]
          rw [← hkj]
          exact List.mem_map.mpr ⟨k, hk, rfl⟩
        rw [hrest]
        have hnw : isWaiting { j with state := JobState.active } = false := rfl
        unfold countWaiting
        rw [List.filter_cons, List.filter_cons]
        simp [hw, hnw]
      · have haid : a.id ≠ i := by
          intro he
          apply hna
          exact List.mem_map.mpr ⟨j, hjr, by rw [hid]; exact he.symm⟩
        rw [hsa, if_neg haid]
        have hcw : 1 ≤ countWaiting rest := by
          unfold countWaiting
          have hmf : j ∈ rest.filter isWaiting := List.mem_filter.mpr ⟨hjr, hw⟩
          exact List.length_pos.mpr (List.ne_nil_of_mem hmf)
        have ihr := ih hndr hjr
        unfold countWaiting at ihr hcw ⊢
        rw [List.filter_cons, List.filter_cons]
        by_cases hwa : isWaiting a = true <;> simp [hwa, List.length_cons] <;> omega

/-- A positive waiting count means `find?` locates a waiting job. -/
theorem find_of_countWaiting_pos (store : List QJob)
    (h : 0 < countWaiting store) :
    ∃ j, store.find? isWaiting = some j ∧ j ∈ store ∧ isWaiting j = true := by
  unfold countWaiting at h
  have hne : store.filter isWaiting ≠ [] := by
    intro he
    rw [he] at h
    exact Nat.lt_irrefl 0 h
  obtain ⟨x, hx⟩ := List.exists_mem_of_ne_nil _ hne
  obtain ⟨hxmem, hxw⟩ := List.mem_filter.mp hx
  have : (store.find? isWaiting).isSome := by
    rw [List.find?_isSome]
    exact ⟨x, hxmem, hxw⟩
  obtain ⟨j, hj⟩ := Option.isSome_iff_exists.mp this
  exact ⟨j, hj, List.mem_of_find?_eq_some hj, List.find?_some hj⟩

/-- Inductive core of the no-duplicate-claim property: N atomic claims
against a store with unique ids and at least N waiting jobs return
exactly N ids, pairwise distinct, all of which were waiting. -/
theorem claimMany_spec (N : Nat) :
    ∀ store : List QJob, (store.map QJob.id).Nodup →
      N ≤ countWaiting store →
      (claimMany N store).1.length = N ∧ (claimMany N store).1.Nodup ∧
      ∀ i ∈ (claimMany N store).1, i ∈ waitingIds store := by
  induction N with
  | zero =>
      intro store _ _
      exact ⟨rfl, List.nodup_nil, by intro i h; exact absurd h (List.not_mem_nil i)⟩
  | succ n ih =>
      intro store hnd hM
      obtain ⟨j, hfind, hjmem, hjw⟩ :=
        find_of_countWaiting_pos store (Nat.lt_of_lt_of_le (Nat.succ_pos n) hM)
      have hcn : claimNext store = (some j.id, setActive store j.id) := by
        unfold claimNext
        rw [hfind]
      have hstep : claimMany (n + 1) store =
          (j.id :: (claimMany n (setActive store j.id)).1,
            (claimMany n (setActive store j.id)).2) := by
        show (match claimNext store with
          | (none, store') => ([], store')
          | (some i, store') =>
              (i :: (claimMany n store').1, (claimMany n store').2)) =
          (j.id :: (claimMany n (setActive store j.id)).1,
            (claimMany n (setActive store j.id)).2)
        rw [hcn]
      have hnd' : ((setActive store j.id).map QJob.id).Nodup := by
        rw [setActive_map_id]
        exact hnd
      have hcount : countWaiting (setActive store j.id) = countWaiting store - 1 :=
        countWaiting_setActive store j.id hnd j hjmem rfl hjw
      have hM' : n ≤ countWaiting (setActive store j.id) := by
        rw [hcount]; omega
      obtain ⟨hlen, hdup, hsub⟩ := ih (setActive store j.id) hnd' hM'
      rw [hstep]
      refine ⟨by simp [hlen], ?_, ?_⟩
      · rw [List.nodup_cons]
        refine ⟨fun hmem => ?_, hdup⟩
        exact not_mem_waitingIds_setActive store j.id (hsub j.id hmem)
      · intro i hi
        rcases List.mem_cons.mp hi with hij | hirest
        · subst hij
          exact List.mem_map.mpr ⟨j, List.mem_filter.mpr ⟨hjmem, hjw⟩, rfl⟩
        · exact waitingIds_setActive_subset store j.id i (hsub i hirest)

/-- C9: N claimNext calls against a store with unique job ids and M ≥ N
waiting jobs return N distinct job ids (no job is claimed twice), each of
which was a waiting job — so at most one caller ever transitions a given
job from waiting to active. -/
theorem claimNext_no_duplicate_claims (N : Nat) (store : List QJob)
    (hnd : (store.map QJob.id).Nodup) (hM : N ≤ countWaiting store) :
    (claimMany N store).1.length = N ∧ (claimMany N store).1.Nodup ∧
    ∀ i ∈ (claimMany N store).1, i ∈ waitingIds store :=
  claimMany_spec N store hnd hM

/-- Concrete instantiation of `claimNext_no_duplicate_claims`: two claims
against three waiting jobs return two distinct ids. -/
theorem claimNext_no_duplicate_claims_witness :
    (claimMany 2 [⟨10, 1, .waiting⟩, ⟨11, 2, .waiting⟩, ⟨12, 3, .waiting⟩]).1.length = 2 ∧
    (claimMany 2 [⟨10, 1, .waiting⟩, ⟨11, 2, .waiting⟩, ⟨12, 3, .waiting⟩]).1.Nodup := by
  have h := claimNext_no_duplicate_claims 2
    [⟨10, 1, .waiting⟩, ⟨11, 2, .waiting⟩, ⟨12, 3, .waiting⟩]
    (by decide) (by decide)
  exact ⟨h.1, h.2.1⟩

/-- Default temporary directory used when `TEMP_DIR` is unset
(src/src/middleware/fileUpload.js). -/
def defaultTempDir : String := "/tmp/document-processing"

/-- JavaScript `String.prototype.startsWith` on the stored character
sequences. -/
def strStartsWith (s pre : String) : Bool :=
  pre.data.isPrefixOf s.data

/-- Filesystem state as the cleanup code observes it: the set of existing
paths together with an oracle saying which `fs.unlink` calls throw
(permission errors, races with the janitorial sweep, …). -/
structure Fs where
  files : List String
  unlinkFails : String → Bool

/-- Embedding of `cleanupFile` (src/src/middleware/fileUpload.js lines
152-160): unlink is attempted only when the path is truthy and starts
with the configured temp directory (`TEMP_DIR` or the default); a
throwing unlink is caught and logged, leaving the filesystem — and the
caller — unaffected. -/
def cleanupFile (tempDirEnv : Option String) (filePath : String) (fs : Fs) : Fs :=
  if filePath ≠ "" ∧ strStartsWith filePath (tempDirEnv.getD defaultTempDir) = true then
    if fs.unlinkFails filePath then fs
    else { fs with files := fs.files.erase filePath }
  else fs

/-- Response of a synchronous conversion/OCR route: the sent payload or
the error propagated to the error handler. -/
inductive SyncResponse
  | ok (body : String)
  | fail (message : String)
  deriving DecidableEq, Repr

/-- Embedding of the try/catch/finally shape shared by every synchronous
upload route (src/src/routes/convert.js, e.g. office-to-pdf lines 10-43,
and src/src/routes/ocr.js, e.g. extract-text lines 8-35): with no
uploaded file the route fails validation and the `finally` guard skips
cleanup; otherwise the converter's outcome becomes the response and the
`finally` block always calls `cleanupFile` on the uploaded path,
whether the conversion succeeded or threw. -/
def syncUploadRoute (tempDirEnv : Option String) (upload : Option String)
    (convert : String → Except String String) (fs : Fs) : SyncResponse × Fs :=
  match upload with
  | none => (.fail "No file uploaded", fs)
  | some path =>
      (match convert path with
        | .ok r => SyncResponse.ok r
        | .error e => SyncResponse.fail e,
       cleanupFile tempDirEnv path fs)

/-- C10: after a synchronous conversion or OCR request with an uploaded
file, the temporary input file is cleaned up whether the conversion
succeeds or fails; when unlink succeeds the file is deleted, a failing
unlink leaves the filesystem untouched and never changes the response
(the response does not depend on the filesystem at all), and cleanup
touches nothing outside the configured temporary directory. -/
theorem sync_upload_cleanup (tempDirEnv : Option String) (path : String)
    (convert : String → Except String String) (fs : Fs)
    (hpath : strStartsWith path (tempDirEnv.getD defaultTempDir) = true)
    (hne : path ≠ "") :
    (∀ r, convert path = .ok r →
      syncUploadRoute tempDirEnv (some path) convert fs =
        (.ok r, cleanupFile tempDirEnv path fs)) ∧
    (∀ e, convert path = .error e →
      syncUploadRoute tempDirEnv (some path) convert fs =
        (.fail e, cleanupFile tempDirEnv path fs)) ∧
    (fs.unlinkFails path = false →
      (cleanupFile tempDirEnv path fs).files = fs.files.erase path) ∧
    (fs.unlinkFails path = true → cleanupFile tempDirEnv path fs = fs) ∧
    (∀ fs' : Fs, (syncUploadRoute tempDirEnv (some path) convert fs).1 =
      (syncUploadRoute tempDirEnv (some path) convert fs').1) ∧
    (∀ q : String, strStartsWith q (tempDirEnv.getD defaultTempDir) = false →
      cleanupFile tempDirEnv q fs = fs) := by
  refine ⟨?_, ?_, ?_, ?_, ?_, ?_⟩
  · intro r hr
    simp [syncUploadRoute, hr]
  · intro e he
    simp [syncUploadRoute, he]
  · intro hu
    simp [cleanupFile, hne, hpath, hu]
  · intro hu
    simp [cleanupFile, hne, hpath, hu]
  · intro fs'
    cases hconv : convert path <;> simp [syncUploadRoute, hconv]
  · intro q hq
    simp [cleanupFile, hq]

/-- Concrete instantiation of `sync_upload_cleanup`: a successful
office-to-pdf conversion of an uploaded file in the default temp
directory deletes the upload and sends the converted payload; a path
outside the temp directory is never deleted. -/
theorem sync_upload_cleanup_witness :
    syncUploadRoute none (some "/tmp/document-processing/u1-a.docx")
      (fun _ => Except.ok "pdf-bytes")
      ⟨["/tmp/document-processing/u1-a.docx"], fun _ => false⟩ =
      (.ok "pdf-bytes", cleanupFile none "/tmp/document-processing/u1-a.docx"
        ⟨["/tmp/document-processing/u1-a.docx"], fun _ => false⟩) ∧
    (cleanupFile none "/tmp/document-processing/u1-a.docx"
      ⟨["/tmp/document-processing/u1-a.docx"], fun _ => false⟩).files = [] ∧
    cleanupFile none "/etc/passwd"
      ⟨["/tmp/document-processing/u1-a.docx"], fun _ => false⟩ =
      ⟨["/tmp/document-processing/u1-a.docx"], fun _ => false⟩ := by
  have h := sync_upload_cleanup none "/tmp/document-processing/u1-a.docx"
    (fun _ => Except.ok "pdf-bytes")
    ⟨["/tmp/document-processing/u1-a.docx"], fun _ => false⟩
    (by decide) (by decide)
  refine ⟨h.1 "pdf-bytes" rfl, ?_, h.2.2.2.2.2 "/etc/passwd" (by decide)⟩
  have h3 := h.2.2.1 rfl
  rw [h3]
  decide

end DocProc
